import Mathlib

/-!
Verification of the NYC congestion-pricing audit pipeline
(`src/pipeline/pipeline.py`) against its natural-language specification.

The pipeline delegates bulk computation to DuckDB SQL queries; we shallowly
embed those queries as Lean functions over lists of trip records.  Numeric
columns (`trip_distance`, `fare_amount`, `total_amount`,
`congestion_surcharge`) are modelled as rationals; SQL division is exact
here, and the division-by-zero guards of the source are carried over
verbatim.  Timestamps are modelled as an absolute minute count (so the
DuckDB minute date_diff is the difference of the counts) together with
the calendar month, which is the only calendar observation the audited
queries make (`month(t) IN (1,2,3)`); date literals such as 2025-01-05
appearing in the SQL become explicit parameters of the embedded queries.
-/

namespace Pipeline

/-- A timestamp: absolute minutes on a global timeline plus its calendar
month.  `absMin` models DuckDB minute arithmetic (the minute date_diff
and comparison against date literals); `month` models `month(t)`. -/
structure Timestamp where
  absMin : Int
  month : Int
deriving DecidableEq, Repr

/-- The DuckDB minute date_diff: whole minutes from `a` to `b`. -/
def dateDiffMinute (a b : Timestamp) : Int := b.absMin - a.absMin

/-- One row of the unified view `all_trips_2025` built by
`run_ghost_trip_audit`: `VendorID`, type label, pickup/dropoff timestamp,
pickup/dropoff zone, `trip_distance`, `fare_amount as fare`,
`total_amount`, `COALESCE(congestion_surcharge, 0)`. -/
structure Trip where
  vendorID : Int
  isYellow : Bool
  pickup_time : Timestamp
  dropoff_time : Timestamp
  pickup_loc : Int
  dropoff_loc : Int
  trip_distance : ℚ
  fare : ℚ
  total_amount : ℚ
  congestion_surcharge : ℚ
deriving DecidableEq, Repr

/-- The minute date_diff from `pickup_time` to `dropoff_time` of a row. -/
def durationMin (t : Trip) : Int := dateDiffMinute t.pickup_time t.dropoff_time

/-- Threshold `GHOST_SPEED_LIMIT = 65.0` (mph). -/
def ghostSpeedLimit : ℚ := 65

/-- Threshold `GHOST_I_TELEPORTER_TIME = 1.0` (minutes). -/
def ghostTeleporterTime : ℚ := 1

/-- Threshold `GHOST_I_TELEPORTER_FARE = 20.0` (dollars). -/
def ghostTeleporterFare : ℚ := 20

/-- Threshold `GHOST_I_STATIONARY_DIST = 0.0` (miles). -/
def ghostStationaryDist : ℚ := 0

/-- The filter speed
`trip_distance / (GREATEST(date_diff, 0.1) / 60.0)` used both
in the `WHERE` clause and in the first `CASE` branch of the audit query. -/
def speedFilterMph (t : Trip) : ℚ :=
  t.trip_distance / (max ((durationMin t : ℚ)) (1/10) / 60)

/-- The reported speed column:
`CASE WHEN date_diff(…) <= 0 THEN 0 ELSE trip_distance / (date_diff(…) / 60.0) END`. -/
def speedMph (t : Trip) : ℚ :=
  if durationMin t ≤ 0 then 0 else t.trip_distance / ((durationMin t : ℚ) / 60)

/-- First fraud predicate: `speed_filter > GHOST_SPEED_LIMIT`. -/
def physPred (t : Trip) : Prop := speedFilterMph t > ghostSpeedLimit

/-- Second fraud predicate:
`date_diff < 1.0 AND fare > 20.0`. -/
def telePred (t : Trip) : Prop :=
  (durationMin t : ℚ) < ghostTeleporterTime ∧ t.fare > ghostTeleporterFare

/-- Third fraud predicate: `trip_distance = 0.0 AND fare > 0`. -/
def statPred (t : Trip) : Prop :=
  t.trip_distance = ghostStationaryDist ∧ t.fare > 0

instance (t : Trip) : Decidable (physPred t) := by unfold physPred; infer_instance
instance (t : Trip) : Decidable (telePred t) := by unfold telePred; infer_instance
instance (t : Trip) : Decidable (statPred t) := by unfold statPred; infer_instance

/-- The `WHERE` clause of the audit query: the disjunction of the three
fraud predicates. -/
def ghostPred (t : Trip) : Prop := physPred t ∨ telePred t ∨ statPred t

instance (t : Trip) : Decidable (ghostPred t) := by unfold ghostPred; infer_instance

/-- The `fraud_flag` labels of the audit query (Impossible Physics,
Teleporter, Stationary Ride, OK). -/
inductive FraudFlag where
  | impossiblePhysics
  | teleporter
  | stationaryRide
  | ok
deriving DecidableEq, Repr

/-- The `CASE` expression computing `fraud_flag`: branches tested in order,
first match wins, ELSE the OK label. -/
def fraudFlag (t : Trip) : FraudFlag :=
  if physPred t then .impossiblePhysics
  else if telePred t then .teleporter
  else if statPred t then .stationaryRide
  else .ok

/-- One row of the persisted `ghost_trip_audit.csv`: the full record plus
the derived `duration_min`, `speed_mph` and `fraud_flag` columns. -/
structure FlaggedRow where
  trip : Trip
  duration_min : Int
  speed_mph : ℚ
  fraud_flag : FraudFlag
deriving DecidableEq, Repr

/-- The audit `COPY … SELECT` of `run_ghost_trip_audit`: rows of the
unified view satisfying the `WHERE` disjunction, extended with the derived
columns. -/
def ghostTripAudit (trips : List Trip) : List FlaggedRow :=
  (trips.filter (fun t => decide (ghostPred t))).map
    (fun t => ⟨t, durationMin t, speedMph t, fraudFlag t⟩)

/-- The vendor rollup: the number of flagged rows carrying a given
`VendorID` (the `GROUP BY VendorID … COUNT(*)` of the vendor query). -/
def ghostCountFor (trips : List Trip) (v : Int) : Nat :=
  ((ghostTripAudit trips).filter (fun r => r.trip.vendorID == v)).length

/-! ## Aggregation engine (`run_impact_analysis`) -/

/-- Stable descending insertion by a rational key (models SQL
`ORDER BY key DESC`). -/
def insertByDesc (key : α → ℚ) (x : α) : List α → List α
  | [] => [x]
  | y :: ys => if key y < key x then x :: y :: ys else y :: insertByDesc key x ys

/-- Sort by a rational key, descending (models SQL `ORDER BY key DESC`). -/
def sortByDesc (key : α → ℚ) : List α → List α
  | [] => []
  | x :: xs => insertByDesc key x (sortByDesc key xs)

/-- One output row of the leakage query `leakage_analysis.csv`. -/
structure LeakageRow where
  pickup_loc : Int
  total_trips : Nat
  compliant_trips : Nat
  compliance_rate : ℚ
  leakage_rate : ℚ
deriving DecidableEq, Repr

/-- The `WHERE` clause of the leakage query:
`pickup_time >= start_date AND pickup_loc NOT IN (zone) AND dropoff_loc IN (zone)`.
The date literal 2025-01-05 and the `CONGESTION_ZONE_IDS` tuple are the
interpolated query parameters `startDate` and `zone`. -/
def leakageQualifies (startDate : Int) (zone : List Int) (t : Trip) : Bool :=
  startDate ≤ t.pickup_time.absMin && t.pickup_loc ∉ zone && t.dropoff_loc ∈ zone

/-- The aggregate row of the leakage query for one `pickup_loc` group:
`COUNT(*)`, the `SUM(CASE WHEN congestion_surcharge > 0 THEN 1 ELSE 0 END)`
count, `compliance_rate` = compliant / total, and
`leakage_rate = 1.0 - compliance_rate`. -/
def leakageRowFor (startDate : Int) (zone : List Int) (trips : List Trip)
    (loc : Int) : LeakageRow :=
  let group := trips.filter
    (fun t => leakageQualifies startDate zone t && t.pickup_loc == loc)
  let total := group.length
  let compliant := (group.filter (fun t => 0 < t.congestion_surcharge)).length
  { pickup_loc := loc
    total_trips := total
    compliant_trips := compliant
    compliance_rate := (compliant : ℚ) / (total : ℚ)
    leakage_rate := 1 - (compliant : ℚ) / (total : ℚ) }

/-- The leakage query: group qualifying trips by `pickup_loc`,
`HAVING COUNT(*) > 100`, `ORDER BY leakage_rate DESC`, `LIMIT 20`. -/
def leakageTable (startDate : Int) (zone : List Int) (trips : List Trip) :
    List LeakageRow :=
  let locs := ((trips.filter (leakageQualifies startDate zone)).map
    (fun t => t.pickup_loc)).dedup
  let rows := (locs.map (leakageRowFor startDate zone trips)).filter
    (fun r => 100 < r.total_trips)
  (sortByDesc (fun r => r.leakage_rate) rows).take 20

/-- The `get_q1_count` query for one year: count dropoffs with
`month(t) IN (1,2,3)`, `t` within the interpolated year bounds
(Jan 1 of the year up to but excluding Apr 1, here the parameters `lo`/`hi` on the
minute timeline), and `DOLocationID` in the congestion zone. -/
def q1Count (lo hi : Int) (zone : List Int) (trips : List Trip) : Nat :=
  (trips.filter (fun t =>
    t.dropoff_time.month ∈ ([1, 2, 3] : List Int) &&
    lo ≤ t.dropoff_time.absMin && t.dropoff_time.absMin < hi &&
    t.dropoff_loc ∈ zone)).length

/-- The Q1 percent change reported by `run_impact_analysis`:
`diff = (q1_2025 - q1_2024) / q1_2024 * 100 if q1_2024 > 0 else 0`. -/
def q1PctChange (earlier later : Nat) : ℚ :=
  if 0 < earlier then ((later : ℚ) - (earlier : ℚ)) / (earlier : ℚ) * 100 else 0

/-- One output row of the border-effect query `border_effect.csv`. -/
structure BorderRow where
  location_id : Int
  count_2024 : Nat
  count_2025 : Nat
  diff : Int
  pct_change : ℚ
deriving DecidableEq, Repr

/-- One CTE of the border-effect query (`q1_2024` / `q1_2025`): per
dropoff location, the count of rows with `month(tpep_dropoff_datetime) IN
(1,2,3)`.  Grouping yields one pair per distinct location. -/
def q1DropoffCounts (trips : List Trip) : List (Int × Nat) :=
  let q1 := trips.filter (fun t => t.dropoff_time.month ∈ ([1, 2, 3] : List Int))
  ((q1.map (fun t => t.dropoff_loc)).dedup).map
    (fun loc => (loc, (q1.filter (fun t => t.dropoff_loc == loc)).length))

/-- One joined row of the border-effect `FULL OUTER JOIN`, from the two
(possibly absent) per-year counts of a location:
`COALESCE(a.cnt, 0)`, `COALESCE(b.cnt, 0)`, their difference, and
`CASE WHEN COALESCE(a.cnt,0) > 0 THEN (b-a)*100.0/a.cnt ELSE 0 END`. -/
def borderRow (loc : Int) (a b : Option Nat) : BorderRow :=
  let a0 := a.getD 0
  let b0 := b.getD 0
  { location_id := loc
    count_2024 := a0
    count_2025 := b0
    diff := (b0 : Int) - (a0 : Int)
    pct_change :=
      if 0 < a0 then ((b0 : ℚ) - (a0 : ℚ)) * 100 / (a0 : ℚ) else 0 }

/-- The `FULL OUTER JOIN … ON a.loc = b.loc` of the two grouped CTEs: one
row per location occurring on either side (each side has unique keys,
being the result of a `GROUP BY`). -/
def fullOuterJoin (a b : List (Int × Nat)) : List BorderRow :=
  ((a.map Prod.fst ++ b.map Prod.fst).dedup).map
    (fun loc => borderRow loc (a.lookup loc) (b.lookup loc))

/-- The border-effect query: per-location Q1 dropoff counts of the two
comparison years, full-outer-joined on location id. -/
def borderEffect (trips2024 trips2025 : List Trip) : List BorderRow :=
  fullOuterJoin (q1DropoffCounts trips2024) (q1DropoffCounts trips2025)

/-! ## Imputation engine (`impute_december_data`)

The effect of the engine on local storage is modelled by explicit state passing:
the state is the set of existing parquet files, and each run additionally
reports the sampling reads and file writes it performed. -/

/-- The taxi classes iterated by `TAXI_TYPES` (yellow then green). -/
inductive Taxi where
  | yellow
  | green
deriving DecidableEq, Repr

/-- A monthly parquet file `{taxi}_tripdata_{year}-{month:02d}.parquet`
under `DATA_DIR/{year}/{taxi}/`. -/
structure FileId where
  year : Int
  taxi : Taxi
  month : Int
deriving DecidableEq, Repr

/-- The imputation target `{taxi}_tripdata_2025-12.parquet`. -/
def targetFile (taxi : Taxi) : FileId := ⟨2025, taxi, 12⟩

/-- The two-years-prior source `{taxi}_tripdata_2023-12.parquet`. -/
def srcFile2023 (taxi : Taxi) : FileId := ⟨2023, taxi, 12⟩

/-- The one-year-prior source `{taxi}_tripdata_2024-12.parquet`. -/
def srcFile2024 (taxi : Taxi) : FileId := ⟨2024, taxi, 12⟩

/-- An observable side effect of the imputation engine: a sampling read of
a source file (`WHERE random() < p`) or a write of the target file
(`COPY … TO target`). -/
inductive ImputeEvent where
  | sample (src : FileId)
  | write (tgt : FileId)
deriving DecidableEq, Repr

/-- The filesystem state: the set of existing files. -/
abbrev FileSys := List FileId

/-- One iteration of the `for taxi in TAXI_TYPES` loop of
`impute_december_data`: if the target file exists, `continue` (no effect);
if either source is missing, warn and skip (no effect); otherwise sample
both sources and write the target. -/
def imputeStep (fs : FileSys) (taxi : Taxi) : FileSys × List ImputeEvent :=
  if targetFile taxi ∈ fs then (fs, [])
  else if srcFile2023 taxi ∉ fs ∨ srcFile2024 taxi ∉ fs then (fs, [])
  else (targetFile taxi :: fs,
    [.sample (srcFile2023 taxi), .sample (srcFile2024 taxi),
     .write (targetFile taxi)])

/-- `impute_december_data`: the loop body run for `yellow`, then `green`,
threading the filesystem state and collecting the side effects. -/
def imputeDecemberData (fs : FileSys) : FileSys × List ImputeEvent :=
  let r1 := imputeStep fs .yellow
  let r2 := imputeStep r1.1 .green
  (r2.1, r1.2 ++ r2.2)

/-! ## Orchestration (`main`, exception propagation across stages)

`main` wraps `run_ghost_trip_audit; run_impact_analysis;
fetch_weather_and_analyze` in a single try/except.  Inside the stages, some
job bodies are individually wrapped in try/except (their failures are
logged and swallowed) and some are not (their failures escape to the
handler in `main`, aborting everything after them).  We model a run by the ordered
list of jobs whose body is attempted, as a function of which job bodies
would raise. -/

/-- The jobs of phases 2–4, in program order. -/
inductive Job where
  | viewCreate
  | auditQuery
  | vendorRollup
  | revenue
  | leakage
  | q1Volume
  | statsExport
  | velocity
  | borderJob
  | weatherFetch
  | dailyTrips
  | tipEconomics
  | elasticity
deriving DecidableEq, Repr

/-- Failure environment of a run: whether the unified-view creation
succeeds (`viewOk`, i.e. files matched the glob patterns), and an injected
body failure per aggregation/weather job. -/
structure RunCond where
  viewOk : Bool
  revFails : Bool
  leakFails : Bool
  q1Fails : Bool
  velFails : Bool
  borderFails : Bool
  weatherFetchFails : Bool
  dailyFails : Bool
  tipsFails : Bool
  elasticityFails : Bool
deriving DecidableEq, Repr

/-- Whether the body of a job raises under condition `c`.  `revenue` and
`leakage` query the view `all_trips_2025`, so they also raise when the
view was never created; `q1Volume`, `velocity` and `borderJob` read the
parquet globs directly and their internal failures are what the injected
flags model. -/
def jobRaises (c : RunCond) : Job → Bool
  | .viewCreate => !c.viewOk
  | .auditQuery => false
  | .vendorRollup => false
  | .revenue => !c.viewOk || c.revFails
  | .leakage => !c.viewOk || c.leakFails
  | .q1Volume => c.q1Fails
  | .statsExport => false
  | .velocity => c.velFails
  | .borderJob => c.borderFails
  | .weatherFetch => c.weatherFetchFails
  | .dailyTrips => !c.viewOk || c.dailyFails
  | .tipEconomics => !c.viewOk || c.tipsFails
  | .elasticity => c.elasticityFails

/-- Whether the body of a job is wrapped in its own try/except in the source
(so that a raise is caught and logged at the job boundary).  Per the code:
view creation, revenue, the two `get_q1_count` calls, each velocity year,
the border query, the weather fetch and the elasticity block are wrapped;
the leakage query, the daily-trips query and the tips query are not. -/
def jobGuarded : Job → Bool
  | .viewCreate => true
  | .auditQuery => false
  | .vendorRollup => false
  | .revenue => true
  | .leakage => false
  | .q1Volume => true
  | .statsExport => false
  | .velocity => true
  | .borderJob => true
  | .weatherFetch => true
  | .dailyTrips => false
  | .tipEconomics => false
  | .elasticity => true

/-- Run a straight-line sequence of jobs: each job in turn is attempted;
an unguarded raise aborts the rest of the sequence (the exception
propagates out of the enclosing stage function to the handler in `main`).
Returns the attempted jobs and whether an exception escaped. -/
def runSeq (c : RunCond) : List Job → List Job × Bool
  | [] => ([], false)
  | j :: js =>
    if jobRaises c j && !jobGuarded j then ([j], true)
    else
      let r := runSeq c js
      (j :: r.1, r.2)

/-- `run_ghost_trip_audit`: create the view; on failure print and
`return 0, []` — the error is swallowed, no exception escapes, and the
audit query and vendor rollup are skipped. -/
def ghostAuditStage (c : RunCond) : List Job × Bool :=
  if c.viewOk then ([.viewCreate, .auditQuery, .vendorRollup], false)
  else ([.viewCreate], false)

/-- The value `run_ghost_trip_audit` returns when view creation fails:
`return 0, []`. -/
def ghostAuditFailureResult : Nat × List (Int × Nat) := (0, [])

/-- `run_impact_analysis`: revenue, leakage, Q1 counts, stats export,
velocity, border effect, in program order. -/
def impactStage (c : RunCond) : List Job × Bool :=
  runSeq c [.revenue, .leakage, .q1Volume, .statsExport, .velocity, .borderJob]

/-- `fetch_weather_and_analyze`: weather fetch, daily trip counts, tip
economics, elasticity, in program order. -/
def weatherStage (c : RunCond) : List Job × Bool :=
  runSeq c [.weatherFetch, .dailyTrips, .tipEconomics, .elasticity]

/-- The try block of `main`: the three stages in order; an exception
escaping a stage is caught by the single handler, skipping the later stages.
Returns the ordered list of all attempted job bodies. -/
def mainTrace (c : RunCond) : List Job :=
  let g := ghostAuditStage c
  let i := impactStage c
  if i.2 then g.1 ++ i.1
  else
    let w := weatherStage c
    g.1 ++ i.1 ++ w.1

/-- The failure environment in which every job body would succeed. -/
def allOk : RunCond :=
  ⟨true, false, false, false, false, false, false, false, false, false⟩

/-! ## Weather correlation (`fetch_weather_and_analyze`, elasticity block)

Daily series are lists of `(date, value)` pairs with dates as integers;
the pandas merge of the two frames on the date column is the inner join on
equal dates.  Values are rationals, so `dropna` is the identity here (no
NaN in the model). -/

/-- The pandas merge on the date column: for each trip-count row,
pair it with every weather row of the same date. -/
def mergeOnDate (trips weather : List (Int × ℚ)) : List (Int × ℚ × ℚ) :=
  trips.flatMap (fun tr =>
    (weather.filter (fun w => w.1 == tr.1)).map (fun w => (tr.1, tr.2, w.2)))

/-- Whether the elasticity block computes and persists the correlation
report: requires pandas and scipy, and `len(df_merge) > 10`. -/
def elasticityReportEmitted (pandasOk scipyOk : Bool)
    (trips weather : List (Int × ℚ)) : Bool :=
  pandasOk && scipyOk && 10 < (mergeOnDate trips weather).length

/-! ## Concrete test fixtures used by the theorems below -/

/-- A timestamp at minute `m` of the timeline, in calendar month 1. -/
def tsAt (m : Int) : Timestamp := ⟨m, 1⟩

/-- The scenario trip of the testable properties: submitter 1, distance 0,
fare 10 dollars, duration 5 minutes. -/
def statTrip : Trip := ⟨1, true, tsAt 0, tsAt 5, 7, 9, 0, 10, 12, 0⟩

/-- Three copies of `statTrip`: the scenario of one submitter with three
stationary rides in the target year. -/
def scenarioTrips : List Trip := [statTrip, statTrip, statTrip]

/-- A malformed trip with zero duration but positive distance, where the
reported and the filter speed disagree. -/
def zeroDurTrip : Trip := ⟨2, true, tsAt 0, tsAt 0, 7, 9, 1, 5, 6, 0⟩

/-- A qualifying leakage trip: pickup at zone 7 (outside), dropoff at zone
9 (inside), no surcharge. -/
def qTrip : Trip := ⟨1, true, tsAt 50, tsAt 60, 7, 9, 2, 10, 12, 0⟩

/-- The leakage-table row produced by 101 copies of `qTrip`. -/
def qRow : LeakageRow := leakageRowFor 0 [9] (List.replicate 101 qTrip) 7

/-- A Q1 dropoff at zone 33 during minute 5 of the timeline. -/
def bTrip : Trip := ⟨1, true, tsAt 0, tsAt 5, 7, 33, 2, 10, 12, 0⟩

/-- The failure environment where no source files match the glob patterns
(view creation fails) and nothing else is wrong. -/
def noFilesCond : RunCond :=
  ⟨false, false, false, false, false, false, false, false, false, false⟩

/-- All jobs healthy except: the leakage query raises. -/
def leakFailCond : RunCond :=
  ⟨true, false, true, false, false, false, false, false, false, false⟩

/-- All jobs healthy except: the revenue query raises. -/
def revFailCond : RunCond :=
  ⟨true, true, false, false, false, false, false, false, false, false⟩

/-- All jobs healthy except: the Q1 count queries raise. -/
def q1FailCond : RunCond :=
  ⟨true, false, false, true, false, false, false, false, false, false⟩

/-- All jobs healthy except: the velocity queries raise. -/
def velFailCond : RunCond :=
  ⟨true, false, false, false, true, false, false, false, false, false⟩

/-- All jobs healthy except: the border-effect query raises. -/
def borderFailCond : RunCond :=
  ⟨true, false, false, false, false, true, false, false, false, false⟩

/-- All jobs healthy except: the tip-economics query raises. -/
def tipsFailCond : RunCond :=
  ⟨true, false, false, false, false, false, false, false, true, false⟩

/-- A daily series of `n` consecutive dates with constant value 5. -/
def dailySeries (n : Nat) : List (Int × ℚ) :=
  (List.range n).map (fun i => ((i : Int), 5))

/-! ## Spec-side definitions (for the refinement claim about the two speed
fields) -/

/-- Following the wording of spec section 4.3: the reported `speed_mph` is
0 when `duration_min` is at most 0, else distance divided by
(`duration_min` / 60). -/
def specSpeedMphReported (distance : ℚ) (durMin : Int) : ℚ :=
  if durMin ≤ 0 then 0 else distance / ((durMin : ℚ) / 60)

/-- Following the wording of spec section 4.3: the filter speed is
distance divided by (max(`duration_min`, 0.1) / 60). -/
def specSpeedFilterMph (distance : ℚ) (durMin : Int) : ℚ :=
  distance / (max ((durMin : ℚ)) (1/10) / 60)

/-! ## Helper lemmas -/

/-- The priority characterisation of the `CASE` classifier: each label is
produced exactly when its predicate is the first to match. -/
theorem fraudFlag_char (t : Trip) :
    (fraudFlag t = FraudFlag.impossiblePhysics ↔ physPred t) ∧
    (fraudFlag t = FraudFlag.teleporter ↔ ¬ physPred t ∧ telePred t) ∧
    (fraudFlag t = FraudFlag.stationaryRide ↔
      ¬ physPred t ∧ ¬ telePred t ∧ statPred t) ∧
    (fraudFlag t = FraudFlag.ok ↔ ¬ physPred t ∧ ¬ telePred t ∧ ¬ statPred t) := by
  unfold fraudFlag
  split_ifs with h1 h2 h3 <;> simp_all

/-- Membership after descending insertion. -/
theorem mem_of_mem_insertByDesc {key : α → ℚ} {x a : α} {l : List α}
    (h : a ∈ insertByDesc key x l) : a = x ∨ a ∈ l := by
  induction l with
  | nil => simpa [insertByDesc] using h
  | cons y ys ih =>
    unfold insertByDesc at h
    split_ifs at h with hk
    · simpa using h
    · rcases List.mem_cons.1 h with h | h
      · exact Or.inr (h ▸ List.mem_cons_self _ _)
      · rcases ih h with h | h
        · exact Or.inl h
        · exact Or.inr (List.mem_cons_of_mem _ h)

/-- Membership is preserved by the descending sort. -/
theorem mem_of_mem_sortByDesc {key : α → ℚ} {a : α} {l : List α}
    (h : a ∈ sortByDesc key l) : a ∈ l := by
  induction l with
  | nil => simp [sortByDesc] at h
  | cons y ys ih =>
    unfold sortByDesc at h
    rcases mem_of_mem_insertByDesc h with h | h
    · exact h ▸ List.mem_cons_self _ _
    · exact List.mem_cons_of_mem _ (ih h)

/-- A key with a successful lookup occurs among the first components. -/
theorem mem_keys_of_lookup_some {l : List (Int × Nat)} {k : Int} {v : Nat}
    (h : l.lookup k = some v) : k ∈ l.map Prod.fst := by
  induction l with
  | nil => simp [List.lookup] at h
  | cons p ps ih =>
    obtain ⟨k0, v0⟩ := p
    rw [List.lookup] at h
    by_cases hk : k == k0
    · simp [beq_iff_eq.1 hk]
    · have hk' : (k == k0) = false := by simpa using hk
      rw [hk'] at h
      exact List.mem_cons_of_mem _ (ih h)

/-! ## Claim theorems -/

/-- C1.  The persisted flagged set contains exactly the rows matching at
least one of the three fraud predicates; every persisted row carries the
`fraud_flag` computed by the first-match-wins priority classifier
(ImpossiblePhysics before Teleporter before StationaryRide), and no row
classified OK is ever persisted. -/
theorem c1_flagged_set_exact (trips : List Trip) :
    (∀ r ∈ ghostTripAudit trips,
        r.trip ∈ trips ∧ ghostPred r.trip ∧ r.fraud_flag = fraudFlag r.trip ∧
        r.fraud_flag ≠ FraudFlag.ok) ∧
    (∀ t ∈ trips, ghostPred t →
        (⟨t, durationMin t, speedMph t, fraudFlag t⟩ : FlaggedRow) ∈
          ghostTripAudit trips) ∧
    (∀ t : Trip,
        (fraudFlag t = FraudFlag.impossiblePhysics ↔ physPred t) ∧
        (fraudFlag t = FraudFlag.teleporter ↔ ¬ physPred t ∧ telePred t) ∧
        (fraudFlag t = FraudFlag.stationaryRide ↔
          ¬ physPred t ∧ ¬ telePred t ∧ statPred t)) := by
  refine ⟨?_, ?_, fun t => ⟨(fraudFlag_char t).1, (fraudFlag_char t).2.1,
    (fraudFlag_char t).2.2.1⟩⟩
  · intro r hr
    simp only [ghostTripAudit, List.mem_map, List.mem_filter] at hr
    obtain ⟨t, ⟨ht, hg⟩, rfl⟩ := hr
    have hg' : ghostPred t := of_decide_eq_true hg
    refine ⟨ht, hg', rfl, fun hok => ?_⟩
    have hnone := (fraudFlag_char t).2.2.2.1 hok
    rcases hg' with h | h | h <;> tauto
  · intro t ht hg
    simp only [ghostTripAudit, List.mem_map, List.mem_filter]
    exact ⟨t, ⟨ht, decide_eq_true hg⟩, rfl⟩

/-- Witness for C1 at a concrete one-trip input. -/
theorem c1_flagged_set_exact_witness :
    statTrip ∈ [statTrip] ∧ ghostPred statTrip ∧
    (⟨statTrip, durationMin statTrip, speedMph statTrip, fraudFlag statTrip⟩ :
        FlaggedRow) ∈ ghostTripAudit [statTrip] :=
  ⟨List.mem_singleton_self _, by with_unfolding_all decide,
    (c1_flagged_set_exact [statTrip]).2.1 statTrip (List.mem_singleton_self _)
      (by with_unfolding_all decide)⟩

/-- C2.  Every row with distance 0, positive fare, duration at least one
minute and fare at most 20 dollars is classified StationaryRide (neither
the impossible-physics rule nor the teleporter rule fires on it); the
scenario submitter with three such trips (distance 0, fare 10, duration 5)
gets flagged count 3, all labelled StationaryRide. -/
theorem c2_stationary_ride_classification :
    (∀ t : Trip, t.trip_distance = 0 → 0 < t.fare → 1 ≤ durationMin t →
      t.fare ≤ 20 →
      ¬ physPred t ∧ ¬ telePred t ∧ fraudFlag t = FraudFlag.stationaryRide) ∧
    ghostCountFor scenarioTrips 1 = 3 ∧
    (∀ r ∈ ghostTripAudit scenarioTrips,
      r.fraud_flag = FraudFlag.stationaryRide) := by
  refine ⟨?_, by with_unfolding_all decide, by with_unfolding_all decide⟩
  intro t h1 h2 h3 h4
  have hphys : ¬ physPred t := by
    unfold physPred speedFilterMph ghostSpeedLimit
    rw [h1, zero_div]
    norm_num
  have htele : ¬ telePred t := by
    unfold telePred ghostTeleporterTime
    rintro ⟨hlt, -⟩
    have hge : (1 : ℚ) ≤ (durationMin t : ℚ) := by exact_mod_cast h3
    linarith
  refine ⟨hphys, htele, ?_⟩
  unfold fraudFlag
  rw [if_neg hphys, if_neg htele,
    if_pos (show statPred t from ⟨by rw [h1]; rfl, h2⟩)]

/-- Witness for C2 at the concrete scenario trip. -/
theorem c2_stationary_ride_classification_witness :
    statTrip.trip_distance = 0 ∧ 0 < statTrip.fare ∧
    1 ≤ durationMin statTrip ∧ statTrip.fare ≤ 20 ∧
    fraudFlag statTrip = FraudFlag.stationaryRide :=
  ⟨rfl, by norm_num [statTrip], by with_unfolding_all decide,
    by norm_num [statTrip],
    (c2_stationary_ride_classification.1 statTrip rfl (by norm_num [statTrip])
      (by with_unfolding_all decide) (by norm_num [statTrip])).2.2⟩

/-- C3.  The reported `speed_mph` column is 0 when the duration is at most
0 and distance over (duration / 60) otherwise, while the selection
criterion uses the distinct filter speed distance over
(max(duration, 0.1) / 60) — both exactly as the spec states them — and on
a zero-duration positive-distance row the two values differ. -/
theorem c3_speed_definitions_differ :
    (∀ t : Trip,
      speedMph t = specSpeedMphReported t.trip_distance (durationMin t) ∧
      speedFilterMph t = specSpeedFilterMph t.trip_distance (durationMin t)) ∧
    durationMin zeroDurTrip ≤ 0 ∧ 0 < zeroDurTrip.trip_distance ∧
    speedMph zeroDurTrip ≠ speedFilterMph zeroDurTrip := by
  refine ⟨fun t => ⟨rfl, rfl⟩, by with_unfolding_all decide,
    by norm_num [zeroDurTrip], by with_unfolding_all decide⟩

/-- C4.  Every row of the leakage table satisfies
`compliance_rate + leakage_rate = 1` (exactly, in rational arithmetic). -/
theorem c4_leakage_rates_sum_to_one (startDate : Int) (zone : List Int)
    (trips : List Trip) (r : LeakageRow)
    (hr : r ∈ leakageTable startDate zone trips) :
    r.compliance_rate + r.leakage_rate = 1 := by
  simp only [leakageTable] at hr
  have hr1 := List.take_subset _ _ hr
  have hr2 := mem_of_mem_sortByDesc hr1
  have hr3 := List.mem_of_mem_filter hr2
  obtain ⟨loc, -, rfl⟩ := List.mem_map.1 hr3
  simp only [leakageRowFor]
  ring

set_option maxRecDepth 8000 in
/-- Witness for C4: a concrete leakage table with one row of 101
qualifying trips. -/
theorem c4_leakage_rates_sum_to_one_witness :
    qRow ∈ leakageTable 0 [9] (List.replicate 101 qTrip) ∧
    qRow.compliance_rate + qRow.leakage_rate = 1 :=
  ⟨by with_unfolding_all decide,
    c4_leakage_rates_sum_to_one 0 [9] (List.replicate 101 qTrip) qRow
      (by with_unfolding_all decide)⟩

/-- C5.  In the border-effect full outer join, a zone present only in the
later year is retained with the earlier count reported as 0 and
`pct_change` reported as 0, and the percent-change division is guarded:
whenever the earlier count is not positive the `CASE` falls to the `ELSE`
branch and no division happens. -/
theorem c5_border_join_zero_guard (t24 t25 : List Trip) (loc : Int) (c : Nat)
    (hA : (q1DropoffCounts t24).lookup loc = none)
    (hB : (q1DropoffCounts t25).lookup loc = some c) :
    borderRow loc none (some c) ∈ borderEffect t24 t25 ∧
    (borderRow loc none (some c)).count_2024 = 0 ∧
    (borderRow loc none (some c)).pct_change = 0 ∧
    (∀ (loc' : Int) (a b : Option Nat),
      0 < (borderRow loc' a b).count_2024 ∨ (borderRow loc' a b).pct_change = 0) := by
  refine ⟨?_, rfl, by simp [borderRow], ?_⟩
  · unfold borderEffect fullOuterJoin
    refine List.mem_map.2 ⟨loc, ?_, ?_⟩
    · rw [List.mem_dedup]
      exact List.mem_append_right _ (mem_keys_of_lookup_some hB)
    · rw [hA, hB]
  · intro loc' a b
    by_cases h : 0 < a.getD 0
    · exact Or.inl h
    · exact Or.inr (by simp [borderRow, Nat.not_lt.1 h, h])

/-- Witness for C5: zone 33 appears only in the later-year counts. -/
theorem c5_border_join_zero_guard_witness :
    (q1DropoffCounts []).lookup 33 = none ∧
    (q1DropoffCounts [bTrip]).lookup 33 = some 1 ∧
    borderRow 33 none (some 1) ∈ borderEffect [] [bTrip] ∧
    (borderRow 33 none (some 1)).count_2024 = 0 ∧
    (borderRow 33 none (some 1)).pct_change = 0 :=
  ⟨rfl, by with_unfolding_all decide,
    (c5_border_join_zero_guard [] [bTrip] 33 1 rfl
      (by with_unfolding_all decide)).1,
    (c5_border_join_zero_guard [] [bTrip] 33 1 rfl
      (by with_unfolding_all decide)).2.1,
    (c5_border_join_zero_guard [] [bTrip] 33 1 rfl
      (by with_unfolding_all decide)).2.2.1⟩

/-- C6.  The reported Q1 percent change is
(later − earlier) / earlier × 100 whenever the earlier Q1 count is
positive and 0 when it is 0; counts 1000 and 1100 give exactly 10. -/
theorem c6_q1_pct_change_formula :
    (∀ (lo hi : Int) (zone : List Int) (t24 t25 : List Trip),
        0 < q1Count lo hi zone t24 →
        q1PctChange (q1Count lo hi zone t24) (q1Count lo hi zone t25) =
          ((q1Count lo hi zone t25 : ℚ) - (q1Count lo hi zone t24 : ℚ)) /
            (q1Count lo hi zone t24 : ℚ) * 100) ∧
    (∀ later : Nat, q1PctChange 0 later = 0) ∧
    q1PctChange 1000 1100 = 10 := by
  refine ⟨?_, ?_, by with_unfolding_all decide⟩
  · intro lo hi zone t24 t25 h
    unfold q1PctChange
    rw [if_pos h]
  · intro later
    unfold q1PctChange
    rw [if_neg (lt_irrefl 0)]

/-- Witness for C6 at a concrete one-trip Q1 count. -/
theorem c6_q1_pct_change_formula_witness :
    0 < q1Count 0 10 [33] [bTrip] ∧
    q1PctChange (q1Count 0 10 [33] [bTrip]) (q1Count 0 10 [33] []) =
      ((q1Count 0 10 [33] [] : ℚ) - (q1Count 0 10 [33] [bTrip] : ℚ)) /
        (q1Count 0 10 [33] [bTrip] : ℚ) * 100 :=
  ⟨by with_unfolding_all decide,
    c6_q1_pct_change_formula.1 0 10 [33] [bTrip] []
      (by with_unfolding_all decide)⟩

/-- Files present before a loop iteration are still present after it. -/
theorem imputeStep_mem_of_mem {fs : FileSys} {x : FileId} (t : Taxi)
    (hx : x ∈ fs) : x ∈ (imputeStep fs t).1 := by
  unfold imputeStep
  split_ifs <;> simp [hx]

/-- A loop iteration creates nothing but its own target file. -/
theorem imputeStep_not_mem {fs : FileSys} {x : FileId} (t : Taxi)
    (hx : x ∉ fs) (hne : x ≠ targetFile t) : x ∉ (imputeStep fs t).1 := by
  unfold imputeStep
  split_ifs <;> simp [hx, hne]

/-- A loop iteration whose target already exists, or whose sources are
missing, changes nothing and performs no sampling and no write. -/
theorem imputeStep_noop {fs : FileSys} {t : Taxi}
    (h : targetFile t ∈ fs ∨ srcFile2023 t ∉ fs ∨ srcFile2024 t ∉ fs) :
    imputeStep fs t = (fs, []) := by
  unfold imputeStep
  split_ifs with h1 h2
  · rfl
  · rfl
  · exact absurd (h.resolve_left h1) h2

/-- After a loop iteration, either the target exists or the iteration was
skipped for missing sources. -/
theorem imputeStep_outcome (fs : FileSys) (t : Taxi) :
    targetFile t ∈ (imputeStep fs t).1 ∨
      ((imputeStep fs t).1 = fs ∧
        (srcFile2023 t ∉ fs ∨ srcFile2024 t ∉ fs)) := by
  unfold imputeStep
  split_ifs with h1 h2
  · exact Or.inl h1
  · exact Or.inr ⟨rfl, h2⟩
  · exact Or.inl (List.mem_cons_self _ _)

/-- A source file is never a target file (the years differ). -/
theorem srcFile2023_ne_target (t t' : Taxi) : srcFile2023 t ≠ targetFile t' := by
  simp [srcFile2023, targetFile]

/-- A source file is never a target file (the years differ). -/
theorem srcFile2024_ne_target (t t' : Taxi) : srcFile2024 t ≠ targetFile t' := by
  simp [srcFile2024, targetFile]

/-- C7.  The imputation engine is idempotent by existence check: an
iteration whose target file already exists performs zero sampling and zero
writes and leaves the filesystem unchanged, and a second full call right
after a first call performs no sampling and no write at all. -/
theorem c7_imputation_idempotent :
    (∀ (fs : FileSys) (taxi : Taxi), targetFile taxi ∈ fs →
      imputeStep fs taxi = (fs, [])) ∧
    (∀ fs : FileSys,
      imputeDecemberData (imputeDecemberData fs).1 =
        ((imputeDecemberData fs).1, [])) := by
  constructor
  · intro fs taxi h
    exact imputeStep_noop (Or.inl h)
  · intro fs
    have hy := imputeStep_outcome fs .yellow
    have hg := imputeStep_outcome (imputeStep fs .yellow).1 .green
    have hfs2 : (imputeDecemberData fs).1 =
        (imputeStep (imputeStep fs .yellow).1 .green).1 := rfl
    have hyellow2 :
        imputeStep (imputeDecemberData fs).1 .yellow =
          ((imputeDecemberData fs).1, []) := by
      rw [hfs2]
      rcases hy with h | ⟨heq, hsrc⟩
      · exact imputeStep_noop (Or.inl (imputeStep_mem_of_mem .green h))
      · refine imputeStep_noop (Or.inr ?_)
        rw [heq]
        rcases hsrc with h | h
        · exact Or.inl
            (imputeStep_not_mem .green (heq ▸ h) (srcFile2023_ne_target _ _))
        · exact Or.inr
            (imputeStep_not_mem .green (heq ▸ h) (srcFile2024_ne_target _ _))
    have hgreen2 :
        imputeStep (imputeDecemberData fs).1 .green =
          ((imputeDecemberData fs).1, []) := by
      rw [hfs2]
      rcases hg with h | ⟨heq, hsrc⟩
      · exact imputeStep_noop (Or.inl h)
      · refine imputeStep_noop (Or.inr ?_)
        rw [heq]
        exact hsrc
    show (let r1 := imputeStep (imputeDecemberData fs).1 .yellow
          let r2 := imputeStep r1.1 .green
          (r2.1, r1.2 ++ r2.2)) = ((imputeDecemberData fs).1, [])
    rw [hyellow2]
    show (let r2 := imputeStep (imputeDecemberData fs).1 .green
          (r2.1, List.nil ++ r2.2)) = ((imputeDecemberData fs).1, [])
    rw [hgreen2]
    rfl

/-- Witness for C7 at concrete filesystems. -/
theorem c7_imputation_idempotent_witness :
    targetFile Taxi.yellow ∈ [targetFile Taxi.yellow] ∧
    imputeStep [targetFile Taxi.yellow] Taxi.yellow =
      ([targetFile Taxi.yellow], []) ∧
    imputeDecemberData
        (imputeDecemberData [srcFile2023 Taxi.yellow, srcFile2024 Taxi.yellow]).1 =
      ((imputeDecemberData [srcFile2023 Taxi.yellow, srcFile2024 Taxi.yellow]).1,
        []) :=
  ⟨List.mem_singleton_self _,
    c7_imputation_idempotent.1 _ _ (List.mem_singleton_self _),
    c7_imputation_idempotent.2 [srcFile2023 Taxi.yellow, srcFile2024 Taxi.yellow]⟩

/-- C8, counterexample.  When no files match the glob patterns, the fraud
audit swallows the view-creation error (it returns count 0 and an empty
vendor list, with no exception escaping the stage), and the downstream
aggregation stage is still entered: the revenue and leakage job bodies are
attempted.  So the failure is not a hard stop for the caller and
downstream stages do execute. -/
theorem c8_view_failure_counterexample :
    ghostAuditStage noFilesCond = ([Job.viewCreate], false) ∧
    ghostAuditFailureResult = (0, []) ∧
    Job.revenue ∈ mainTrace noFilesCond ∧
    Job.leakage ∈ mainTrace noFilesCond := by
  refine ⟨rfl, rfl, ?_, ?_⟩ <;> decide

/-- C8, amended.  When no files match the glob patterns, the audit stage
catches the view error and returns (0, []) instead of reporting it upward;
`main` still invokes the aggregation stage, where the revenue body is
attempted (and its own failure is caught) and the leakage body is
attempted, whose uncaught failure then aborts everything after it — the
audit query itself, the Q1 count, the stats export, the velocity, border,
weather and tip jobs never run. -/
theorem c8_view_failure_amended (c : RunCond) (h : c.viewOk = false) :
    ghostAuditStage c = ([Job.viewCreate], false) ∧
    impactStage c = ([Job.revenue, Job.leakage], true) ∧
    mainTrace c = [Job.viewCreate, Job.revenue, Job.leakage] ∧
    Job.auditQuery ∉ mainTrace c ∧ Job.q1Volume ∉ mainTrace c ∧
    Job.statsExport ∉ mainTrace c ∧ Job.velocity ∉ mainTrace c ∧
    Job.borderJob ∉ mainTrace c ∧ Job.weatherFetch ∉ mainTrace c ∧
    Job.tipEconomics ∉ mainTrace c := by
  obtain ⟨vo, f1, f2, f3, f4, f5, f6, f7, f8, f9⟩ := c
  simp only at h
  subst h
  have hm : mainTrace ⟨false, f1, f2, f3, f4, f5, f6, f7, f8, f9⟩ =
      [Job.viewCreate, Job.revenue, Job.leakage] := rfl
  refine ⟨rfl, rfl, hm, ?_, ?_, ?_, ?_, ?_, ?_, ?_⟩ <;> rw [hm] <;> decide

/-- Witness for the amended C8 at the concrete no-files environment. -/
theorem c8_view_failure_amended_witness :
    noFilesCond.viewOk = false ∧
    mainTrace noFilesCond = [Job.viewCreate, Job.revenue, Job.leakage] :=
  ⟨rfl, (c8_view_failure_amended noFilesCond rfl).2.2.1⟩

/-- C9, counterexample.  A failure inside the leakage job is not caught at
the job boundary: with only the leakage query raising, the sibling
aggregation jobs Q1 volume, velocity and border effect are never run
(neither is the whole weather phase). -/
theorem c9_leakage_uncaught_counterexample :
    mainTrace leakFailCond =
      [Job.viewCreate, Job.auditQuery, Job.vendorRollup, Job.revenue,
        Job.leakage] ∧
    Job.q1Volume ∉ mainTrace leakFailCond ∧
    Job.velocity ∉ mainTrace leakFailCond ∧
    Job.borderJob ∉ mainTrace leakFailCond ∧
    Job.tipEconomics ∉ mainTrace leakFailCond := by
  refine ⟨rfl, ?_, ?_, ?_, ?_⟩ <;> decide

/-- C9, amended.  Failures inside the revenue, Q1-count, velocity and
border-effect jobs are caught at the job boundary and every sibling job
still runs; but the leakage and tip-economics jobs are not guarded: a
leakage failure aborts its remaining siblings and the weather phase, and a
tip-economics failure aborts the elasticity analysis. -/
theorem c9_job_isolation_amended :
    mainTrace revFailCond = mainTrace allOk ∧
    mainTrace q1FailCond = mainTrace allOk ∧
    mainTrace velFailCond = mainTrace allOk ∧
    mainTrace borderFailCond = mainTrace allOk ∧
    mainTrace allOk =
      [Job.viewCreate, Job.auditQuery, Job.vendorRollup, Job.revenue,
        Job.leakage, Job.q1Volume, Job.statsExport, Job.velocity,
        Job.borderJob, Job.weatherFetch, Job.dailyTrips, Job.tipEconomics,
        Job.elasticity] ∧
    mainTrace leakFailCond =
      [Job.viewCreate, Job.auditQuery, Job.vendorRollup, Job.revenue,
        Job.leakage] ∧
    mainTrace tipsFailCond =
      [Job.viewCreate, Job.auditQuery, Job.vendorRollup, Job.revenue,
        Job.leakage, Job.q1Volume, Job.statsExport, Job.velocity,
        Job.borderJob, Job.weatherFetch, Job.dailyTrips, Job.tipEconomics] := by
  refine ⟨?_, ?_, ?_, ?_, ?_, ?_, ?_⟩ <;> rfl

/-- C10, counterexample.  With pandas and scipy available and exactly 10
date-joined rows, the elasticity block emits no correlation report (the
source requires strictly more than 10 rows), contradicting the claim that
10 or more joined rows produce one. -/
theorem c10_ten_rows_counterexample :
    (mergeOnDate (dailySeries 10) (dailySeries 10)).length = 10 ∧
    elasticityReportEmitted true true (dailySeries 10) (dailySeries 10) =
      false := by
  refine ⟨?_, ?_⟩ <;> with_unfolding_all decide

/-- C10, amended.  With the capabilities available, the correlation report
is emitted exactly when strictly more than 10 date-joined rows remain: 8
overlapping dates produce no report, 10 joined rows still produce none,
and 11 joined rows produce one. -/
theorem c10_threshold_amended (pandasOk scipyOk : Bool)
    (trips weather : List (Int × ℚ)) :
    (elasticityReportEmitted pandasOk scipyOk trips weather = true ↔
      pandasOk = true ∧ scipyOk = true ∧
        10 < (mergeOnDate trips weather).length) ∧
    elasticityReportEmitted true true (dailySeries 8) (dailySeries 8) = false ∧
    elasticityReportEmitted true true (dailySeries 11) (dailySeries 11) = true := by
  refine ⟨?_, by with_unfolding_all decide, by with_unfolding_all decide⟩
  simp [elasticityReportEmitted, and_assoc]

end Pipeline
